import Mathlib

/-!
Verification development for the RecifeSafe data pipeline.

Shallow embedding of the synthetic-data generator
(`src/data/generate_simulated_data.py`), the real-data conversion pipeline
(`src/data/convert_real_to_synthetic_format.py`) and the dashboard risk
utilities (`src/dashboard/utils.py`).

Modelling conventions:
- Python floats are modelled as exact rationals (`ℚ`); the one genuinely
  real-valued operation, the exponent `(density/10000) ** 0.3`, is modelled
  with `Real.rpow` in the real-valued layer used for the λ-formula theorems.
- External library calls (numpy random draws, numpy `sin`/`pi`/`**`, pandas
  calendar functions) are modelled as explicit function parameters threaded
  through the pipeline; the numpy global RNG after `np.random.seed(seed)` is
  a deterministic stream, modelled as a family of draw functions indexed by a
  draw counter that the pipeline consumes in program order.
- `pd.isna`-style missing values are modelled with `Option`.
-/

namespace RecifeSafe

/-- Python `round(x, n)` (to `n` decimal places), modelled as round-half-up on
exact rationals: `⌊x·10ⁿ + 1/2⌋ / 10ⁿ`. -/
def roundTo (x : ℚ) (n : ℕ) : ℚ :=
  ((⌊x * (10 : ℚ) ^ n + 1 / 2⌋ : ℤ) : ℚ) / (10 : ℚ) ^ n

/-- Python float `%` (`x % y` for `y > 0`): `x - y·⌊x/y⌋`. -/
def qfmod (x y : ℚ) : ℚ := x - y * ⌊x / y⌋

/-- Static per-neighborhood attributes, from the `BAIRROS_RECIFE` dictionary
(identical in `generate_simulated_data.py` and
`convert_real_to_synthetic_format.py`). -/
structure BairroInfo where
  lat : ℚ
  lon : ℚ
  altitude : ℤ
  tipo : String
  vulnerabilidade : ℚ
  densidade_pop : ℤ
  risco_mare : ℚ
  risco_chuva : ℚ
deriving DecidableEq

/-- The `BAIRROS_RECIFE` registry, in source (insertion) order. -/
def BAIRROS_RECIFE : List (String × BairroInfo) := [
  ("Brasília Teimosa",
    { lat := -8.0891, lon := -34.8796, altitude := 2, tipo := "litoraneo",
      vulnerabilidade := 0.82, densidade_pop := 18500,
      risco_mare := 0.95, risco_chuva := 0.75 }),
  ("Pina",
    { lat := -8.0856, lon := -34.8831, altitude := 3, tipo := "litoraneo",
      vulnerabilidade := 0.68, densidade_pop := 12200,
      risco_mare := 0.90, risco_chuva := 0.70 }),
  ("Boa Viagem",
    { lat := -8.1228, lon := -34.8978, altitude := 5, tipo := "litoraneo",
      vulnerabilidade := 0.45, densidade_pop := 9800,
      risco_mare := 0.75, risco_chuva := 0.50 }),
  ("Afogados",
    { lat := -8.0531, lon := -34.9189, altitude := 4, tipo := "ribeirinho",
      vulnerabilidade := 0.78, densidade_pop := 16700,
      risco_mare := 0.65, risco_chuva := 0.85 }),
  ("Ilha Joana Bezerra",
    { lat := -8.0647, lon := -34.8972, altitude := 2, tipo := "ribeirinho",
      vulnerabilidade := 0.85, densidade_pop := 19200,
      risco_mare := 0.88, risco_chuva := 0.90 }),
  ("Coelhos",
    { lat := -8.0636, lon := -34.8717, altitude := 3, tipo := "ribeirinho",
      vulnerabilidade := 0.72, densidade_pop := 14300,
      risco_mare := 0.80, risco_chuva := 0.78 }),
  ("Casa Forte",
    { lat := -8.0189, lon := -34.9247, altitude := 45, tipo := "altitude",
      vulnerabilidade := 0.25, densidade_pop := 5400,
      risco_mare := 0.10, risco_chuva := 0.40 }),
  ("Apipucos",
    { lat := -8.0303, lon := -34.9431, altitude := 50, tipo := "altitude",
      vulnerabilidade := 0.28, densidade_pop := 4800,
      risco_mare := 0.08, risco_chuva := 0.45 }),
  ("Várzea",
    { lat := -8.0411, lon := -34.9536, altitude := 55, tipo := "altitude",
      vulnerabilidade := 0.35, densidade_pop := 6200,
      risco_mare := 0.05, risco_chuva := 0.50 }),
  ("Santo Amaro",
    { lat := -8.0469, lon := -34.8839, altitude := 8, tipo := "urbano_denso",
      vulnerabilidade := 0.65, densidade_pop := 13800,
      risco_mare := 0.45, risco_chuva := 0.70 }),
  ("São José",
    { lat := -8.0569, lon := -34.8819, altitude := 6, tipo := "urbano_denso",
      vulnerabilidade := 0.62, densidade_pop := 12900,
      risco_mare := 0.50, risco_chuva := 0.68 }),
  ("Ibura",
    { lat := -8.1189, lon := -34.9447, altitude := 12, tipo := "urbano_denso",
      vulnerabilidade := 0.75, densidade_pop := 17500,
      risco_mare := 0.30, risco_chuva := 0.80 }),
  ("Cordeiro",
    { lat := -8.0508, lon := -34.9378, altitude := 25, tipo := "urbano_medio",
      vulnerabilidade := 0.48, densidade_pop := 8700,
      risco_mare := 0.25, risco_chuva := 0.55 }),
  ("Madalena",
    { lat := -8.0547, lon := -34.9147, altitude := 10, tipo := "urbano_medio",
      vulnerabilidade := 0.52, densidade_pop := 9800,
      risco_mare := 0.35, risco_chuva := 0.60 }),
  ("Torre",
    { lat := -8.0456, lon := -34.9025, altitude := 15, tipo := "urbano_medio",
      vulnerabilidade := 0.42, densidade_pop := 7600,
      risco_mare := 0.28, risco_chuva := 0.52 })]

/-- Category factors `(fator_mare, fator_chuva, fator_vuln)` as set by the
if/elif chain in `generate_data` (generate_simulated_data.py lines 150-165);
any string other than the three named categories takes the
`urbano_denso`/`urbano_medio` branch. -/
def fatoresGen (tipo : String) : ℚ × ℚ × ℚ :=
  if tipo = "litoraneo" then (2.5, 1.2, 1.8)
  else if tipo = "ribeirinho" then (1.8, 2.2, 2.0)
  else if tipo = "altitude" then (0.1, 1.5, 0.8)
  else (0.8, 1.8, 1.5)

/-- Category factors `(fator_mare, fator_chuva, fator_vuln)` as set by the
if/elif chain in `calculate_ocorrencias`
(convert_real_to_synthetic_format.py lines 423-438). -/
def fatoresConv (tipo : String) : ℚ × ℚ × ℚ :=
  if tipo = "litoraneo" then (2.5, 1.2, 1.8)
  else if tipo = "ribeirinho" then (1.8, 2.2, 2.0)
  else if tipo = "altitude" then (0.1, 1.5, 0.8)
  else (0.8, 1.8, 1.5)

/-- Generator λ before density scaling and clamping
(generate_simulated_data.py lines 167-178): normalized sub-scores combined
with weights 0.4/0.35/0.25 over the base 0.5. -/
noncomputable def lambdaGenBase (tipo : String)
    (chuva mare riscoChuva riscoMare vuln : ℝ) : ℝ :=
  let f := fatoresGen tipo
  let riscoChuvaNorm := chuva / 50.0 * riscoChuva * (f.2.1 : ℝ)
  let riscoMareNorm :=
    if mare > 1.0 then (mare - 1.0) / 0.5 * riscoMare * (f.1 : ℝ) else 0
  let riscoVulnNorm := vuln * (f.2.2 : ℝ)
  0.5 + (riscoChuvaNorm * 0.4 + riscoMareNorm * 0.35 + riscoVulnNorm * 0.25)

/-- Generator λ after density scaling `(densidade/10000) ** 0.3` but before
the clamp to `[0, 15]` (generate_simulated_data.py line 181). -/
noncomputable def lambdaGenPre (tipo : String)
    (chuva mare riscoChuva riscoMare vuln dens : ℝ) : ℝ :=
  lambdaGenBase tipo chuva mare riscoChuva riscoMare vuln
    * (dens / 10000) ^ (0.3 : ℝ)

/-- Generator λ, clamped to `[0, 15]`
(generate_simulated_data.py line 184). -/
noncomputable def lambdaGen (tipo : String)
    (chuva mare riscoChuva riscoMare vuln dens : ℝ) : ℝ :=
  max 0 (min (lambdaGenPre tipo chuva mare riscoChuva riscoMare vuln dens) 15.0)

/-- Converter λ before density scaling and clamping
(convert_real_to_synthetic_format.py lines 440-451, `calculate_ocorrencias`). -/
noncomputable def lambdaConvBase (tipo : String)
    (chuva mare riscoChuva riscoMare vuln : ℝ) : ℝ :=
  let f := fatoresConv tipo
  let riscoChuvaNorm := chuva / 50.0 * riscoChuva * (f.2.1 : ℝ)
  let riscoMareNorm :=
    if mare > 1.0 then (mare - 1.0) / 0.5 * riscoMare * (f.1 : ℝ) else 0
  let riscoVulnNorm := vuln * (f.2.2 : ℝ)
  0.5 + (riscoChuvaNorm * 0.4 + riscoMareNorm * 0.35 + riscoVulnNorm * 0.25)

/-- Converter λ after density scaling but before the clamp
(convert_real_to_synthetic_format.py line 454). -/
noncomputable def lambdaConvPre (tipo : String)
    (chuva mare riscoChuva riscoMare vuln dens : ℝ) : ℝ :=
  lambdaConvBase tipo chuva mare riscoChuva riscoMare vuln
    * (dens / 10000) ^ (0.3 : ℝ)

/-- Converter λ, clamped to `[0, 15]`
(convert_real_to_synthetic_format.py line 457). -/
noncomputable def lambdaConv (tipo : String)
    (chuva mare riscoChuva riscoMare vuln dens : ℝ) : ℝ :=
  max 0 (min (lambdaConvPre tipo chuva mare riscoChuva riscoMare vuln dens) 15.0)

/-- Weight record for the dashboard risk score
(src/dashboard/utils.py, `calculate_risk_score`). -/
structure RWeights where
  occurrences : ℚ
  vulnerability : ℚ
  rainfall : ℚ
  tide : ℚ
deriving DecidableEq

/-- Default weights used when `calculate_risk_score` is called with
`weights=None`. -/
def defaultRWeights : RWeights :=
  { occurrences := 0.4, vulnerability := 0.3, rainfall := 0.2, tide := 0.1 }

/-- Dashboard composite risk score (src/dashboard/utils.py lines 110-141):
`ocorrencias·w_occ + vulnerabilidade·100·w_vuln + chuva·w_rain + mare·10·w_tide`. -/
def calculate_risk_score (ocorrencias vulnerabilidade chuva_mm mare_m : ℚ)
    (weights : Option RWeights) : ℚ :=
  let w := weights.getD defaultRWeights
  ocorrencias * w.occurrences + vulnerabilidade * 100 * w.vulnerability +
    chuva_mm * w.rainfall + mare_m * 10 * w.tide

/-- Risk level descriptor returned by `get_risk_level`
(src/dashboard/utils.py lines 165-198). -/
structure RiskInfo where
  level : String
  color : String
deriving DecidableEq

/-- Dashboard risk bucketing (src/dashboard/utils.py lines 165-198):
high above 0.7, moderate above 0.5, low otherwise. -/
def get_risk_level (probability : ℚ) : RiskInfo :=
  if probability > 0.7 then { level := "RISCO ALTO", color := "#dc3545" }
  else if probability > 0.5 then
    { level := "RISCO MODERADO", color := "#ffc107" }
  else { level := "RISCO BAIXO", color := "#28a745" }

/-- Model of the numpy global random stream after `np.random.seed(seed)`:
each sampler is a deterministic function of the position `k` of the draw in
the single per-run stream (plus the distribution parameters at the call
site). The generator consumes draws in program order via an explicit
counter. -/
structure Env where
  gamma : ℕ → ℚ → ℚ → ℚ
  rand : ℕ → ℚ
  uniform : ℕ → ℚ → ℚ → ℚ
  normal : ℕ → ℚ → ℚ → ℚ
  poisson : ℕ → ℚ → ℕ

/-- Model of the external (non-random) library functions the generator calls:
pandas calendar accessors `d.month` / `d.dayofyear` on a timestamp (here a
day number), numpy `sin` and `pi`, and Python float `**` (used only for
`(densidade/10000) ** 0.3`). -/
structure Ext where
  month : ℤ → ℤ
  dayOfYear : ℤ → ℤ
  sin : ℚ → ℚ
  pi : ℚ
  fpow : ℚ → ℚ → ℚ

/-- One output row of the generator (one `rows.append` in
generate_simulated_data.py lines 192-204). Dates are UTC day numbers. -/
structure Row where
  date : ℤ
  bairro : String
  lat : ℚ
  lon : ℚ
  altitude : ℤ
  vulnerabilidade : ℚ
  densidade_pop : ℤ
  chuva_mm : ℚ
  mare_m : ℚ
  ocorrencias : ℕ
  tipo_bairro : String
deriving DecidableEq, Inhabited

/-- Rainfall of one (neighborhood, day) iteration of `generate_data`
(generate_simulated_data.py lines 127-141): seasonal gamma draw, clamped
non-negative, multiplied by a uniform [2, 4] factor when the extreme-event
draw fires. `k` is the position of the gamma draw in the seeded stream. -/
def genRowChuva (env : Env) (ext : Ext) (d : ℤ) (k : ℕ) : ℚ :=
  let mes := ext.month d
  let chuvaParams : ℚ × ℚ :=
    if mes = 3 ∨ mes = 4 ∨ mes = 5 ∨ mes = 6 ∨ mes = 7 ∨ mes = 8 then
      (25.0, 3.5)
    else (8.0, 2.0)
  let chuva0 := max 0 (env.gamma k chuvaParams.2 (chuvaParams.1 / chuvaParams.2))
  if env.rand (k + 1) < 0.05 then chuva0 * env.uniform (k + 2) 2.0 4.0
  else chuva0

/-- Position of the next unconsumed draw after the rainfall computation: the
extra `uniform` draw is consumed only when the extreme-event branch fired. -/
def genRowKAfterChuva (env : Env) (k : ℕ) : ℕ :=
  if env.rand (k + 1) < 0.05 then k + 3 else k + 2

/-- Tide of one (neighborhood, day) iteration of `generate_data`
(generate_simulated_data.py lines 143-147): annual sinusoid plus
lunar-cycle term plus Gaussian noise, clamped to at least 0.5. -/
def genRowMare (env : Env) (ext : Ext) (d : ℤ) (k1 : ℕ) : ℚ :=
  let diaAno := ext.dayOfYear d
  let mareBase := 1.2 + 0.4 * ext.sin ((diaAno : ℚ) / 365.25 * 2 * ext.pi)
  let mareDiaria :=
    0.3 * ext.sin (qfmod (diaAno : ℚ) 29.5 / 29.5 * 2 * ext.pi)
  max 0.5 (mareBase + mareDiaria + env.normal k1 0 0.08)

/-- Occurrence rate of one (neighborhood, day) iteration of `generate_data`
(generate_simulated_data.py lines 149-184), on the exact-rational carrier
with `**` supplied by `ext.fpow`. -/
def genRowLambda (ext : Ext) (info : BairroInfo) (chuva mare : ℚ) : ℚ :=
  let f := fatoresGen info.tipo
  let riscoChuvaNorm := chuva / 50.0 * info.risco_chuva * f.2.1
  let riscoMareNorm :=
    if mare > 1.0 then (mare - 1.0) / 0.5 * info.risco_mare * f.1 else 0
  let riscoVulnNorm := info.vulnerabilidade * f.2.2
  let lambdaTotal0 := 0.5 +
    (riscoChuvaNorm * 0.4 + riscoMareNorm * 0.35 + riscoVulnNorm * 0.25)
  let lambdaTotal1 :=
    lambdaTotal0 * ext.fpow ((info.densidade_pop : ℚ) / 10000) 0.3
  max 0 (min lambdaTotal1 15.0)

/-- Body of the inner date loop of `generate_data`
(generate_simulated_data.py lines 125-204) for one neighborhood and one day.
`k` is the position of the next unconsumed draw of the seeded stream; the
returned counter accounts for the data-dependent extra `uniform` draw taken
only when `rand() < 0.05`. -/
def genRow (env : Env) (ext : Ext) (bairro : String) (info : BairroInfo)
    (d : ℤ) (k : ℕ) : Row × ℕ :=
  let chuva := genRowChuva env ext d k
  let k1 := genRowKAfterChuva env k
  let mare := genRowMare env ext d k1
  let lambdaTotal := genRowLambda ext info chuva mare
  let ocorrencias := env.poisson (k1 + 1) lambdaTotal
  let latJitter := info.lat + env.normal (k1 + 2) 0 0.0005
  let lonJitter := info.lon + env.normal (k1 + 3) 0 0.0005
  ({ date := d, bairro := bairro,
     lat := roundTo latJitter 6, lon := roundTo lonJitter 6,
     altitude := info.altitude,
     vulnerabilidade := roundTo info.vulnerabilidade 3,
     densidade_pop := info.densidade_pop,
     chuva_mm := roundTo chuva 2, mare_m := roundTo mare 3,
     ocorrencias := ocorrencias, tipo_bairro := info.tipo }, k1 + 4)

/-- Inner date loop of `generate_data` for a fixed neighborhood, threading the
draw counter through the dates in order. -/
def genRowsDates (env : Env) (ext : Ext) (bairro : String) (info : BairroInfo) :
    List ℤ → ℕ → List Row × ℕ
  | [], k => ([], k)
  | d :: ds, k =>
    let p := genRow env ext bairro info d k
    let q := genRowsDates env ext bairro info ds p.2
    (p.1 :: q.1, q.2)

/-- Outer neighborhood loop of `generate_data`: neighborhood-major, then
date-minor, exactly as the two nested `for` loops iterate. -/
def genAllRows (env : Env) (ext : Ext) :
    List (String × BairroInfo) → List ℤ → ℕ → List Row × ℕ
  | [], _, k => ([], k)
  | b :: bs, ds, k =>
    let p := genRowsDates env ext b.1 b.2 ds k
    let q := genAllRows env ext bs ds p.2
    (p.1 ++ q.1, q.2)

/-- Keep-first-occurrence duplicate removal, modelling
`DataFrame.drop_duplicates()`. -/
def dropDupAux {α : Type} [DecidableEq α] (seen : List α) : List α → List α
  | [] => []
  | a :: rest =>
    if a ∈ seen then dropDupAux seen rest
    else a :: dropDupAux (a :: seen) rest

/-- Pandas `drop_duplicates` on a list of rows (keeps first occurrences, in
order). -/
def pandasDropDuplicates {α : Type} [DecidableEq α] (l : List α) : List α :=
  dropDupAux [] l

/-- The day numbers produced by
`pd.date_range(end=today, periods=nDays, freq=D)`: the `nDays` consecutive
days ending at `today`, ascending. -/
def dateRange (today : ℤ) (nDays : ℕ) : List ℤ :=
  (List.range nDays).map (fun i => today - (nDays : ℤ) + 1 + (i : ℤ))

/-- The generator `generate_data(n_days, seed)` after the seeded stream `env`
has been fixed: builds the neighborhood-major/date-minor row list over the
`nDays` days ending at the run date `today`
(from `pd.Timestamp.today().normalize()`), then applies
`drop_duplicates()`. `dropna()` is the identity here since no field of the
model is missing. No sorting is applied. -/
def generateData (env : Env) (ext : Ext) (nDays : ℕ) (today : ℤ) : List Row :=
  pandasDropDuplicates
    (genAllRows env ext BAIRROS_RECIFE (dateRange today nDays) 0).1

/-- The generator as a function of the seed: `np.random.seed(seed)` makes the
whole subsequent draw stream a function `envOf` of the seed alone, so a run
is determined by `(seed, n_days, today)`. -/
def generateDataSeeded (envOf : ℕ → Env) (ext : Ext) (seed nDays : ℕ)
    (today : ℤ) : List Row :=
  generateData (envOf seed) ext nDays today

/-- Distributional contract of the one numpy sampler whose support matters
for the row invariants: `np.random.uniform(a, b)` returns a value in
`[a, b]`. -/
def EnvSane (env : Env) : Prop :=
  ∀ (k : ℕ) (a b : ℚ), a ≤ b → a ≤ env.uniform k a b ∧ env.uniform k a b ≤ b

/-- Dates of a generated table, in row order (the `date` column). -/
def datesOf (l : List Row) : List ℤ := l.map Row.date

/-- Boolean date-then-neighborhood-name (non-strict) row ordering for
generator tables. -/
def rowGLE (a b : Row) : Bool :=
  a.date < b.date || (a.date == b.date && decide (a.bairro ≤ b.bairro))

/-- List is sorted (consecutive pairs) with respect to a boolean relation. -/
def isSortedBy {α : Type} (le : α → α → Bool) : List α → Bool
  | [] => true
  | [_] => true
  | a :: b :: t => le a b && isSortedBy le (b :: t)

/-- Replace every comma by a dot, modelling `str(value).replace(',', '.')`. -/
def commaToDot (s : String) : String :=
  String.mk (s.data.map (fun c => if c = ',' then '.' else c))

/-- Numeric value of a decimal digit character. -/
def digitVal (c : Char) : ℕ := c.toNat - 48

/-- Natural number denoted by a digit list (most significant first). -/
def natOfDigits (cs : List Char) : ℕ :=
  cs.foldl (fun a c => 10 * a + digitVal c) 0

/-- Unsigned decimal literal parser: `digits`, `digits.digits`, `digits.` or
`.digits` (what `float()` accepts for the plain decimal forms occurring in
these data files). -/
def parsePos (cs : List Char) : Option ℚ :=
  let intPart := cs.takeWhile (fun c => c ≠ '.')
  let rest := cs.dropWhile (fun c => c ≠ '.')
  match rest with
  | [] =>
    if !intPart.isEmpty && intPart.all Char.isDigit then
      some (natOfDigits intPart)
    else none
  | _ :: frac =>
    if frac.contains '.' then none
    else if intPart.isEmpty && frac.isEmpty then none
    else if intPart.all Char.isDigit && frac.all Char.isDigit then
      some ((natOfDigits intPart : ℚ) +
        (natOfDigits frac : ℚ) / (10 : ℚ) ^ frac.length)
    else none

/-- Model of Python `float(s)` on the decimal strings of the source files
(optional sign followed by a decimal literal); any other string raises
`ValueError` in Python, modelled as `none`. -/
def pythonFloat (s : String) : Option ℚ :=
  match s.data with
  | '-' :: rest => (parsePos rest).map Neg.neg
  | '+' :: rest => parsePos rest
  | cs => parsePos cs

/-- Brazilian-locale number parser `parse_float_br`
(convert_real_to_synthetic_format.py lines 241-262). A missing cell
(`pd.isna`), the literal hyphen, or the empty string give NaN (`none`); any
other value has commas replaced by dots and is passed to `float`, with a
parse failure also giving NaN. -/
def parse_float_br (value : Option String) : Option ℚ :=
  match value with
  | none => none
  | some s => if s = "-" ∨ s = "" then none else pythonFloat (commaToDot s)

/-- Calendar date (year, month, day), the model of a pandas timestamp in the
conversion pipeline. -/
structure Date where
  y : ℤ
  m : ℤ
  d : ℤ
deriving DecidableEq

/-- Boolean strict lexicographic order on dates. -/
def dateLtB (a b : Date) : Bool :=
  a.y < b.y || (a.y == b.y && (a.m < b.m || (a.m == b.m && a.d < b.d)))

/-- Gregorian leap year test. -/
def leapYear (y : ℤ) : Bool :=
  (y % 4 == 0 && !(y % 100 == 0)) || y % 400 == 0

/-- Number of days of a month (used to model `pd.to_datetime` rejecting
dates like February 31). -/
def daysInMonth (y m : ℤ) : ℤ :=
  if m = 2 then (if leapYear y then 29 else 28)
  else if m = 4 ∨ m = 6 ∨ m = 9 ∨ m = 11 then 30
  else 31

/-- Calendar validity of a (year, month, day) triple. -/
def isValidDate (y m d : ℤ) : Bool :=
  1 ≤ m && m ≤ 12 && 1 ≤ d && d ≤ daysInMonth y m

/-- One row of the tide source file: the date components `Dia`/`Mês`/`Ano`
and the up-to-four `Maré i - Altura (m)` cells as raw values (`none` models
a missing cell). -/
structure MareRow where
  dia : ℤ
  mes : ℤ
  ano : ℤ
  alturas : List (Option String)
deriving DecidableEq

/-- Daily tide mean of one source row: `df[mare_cols].mean(axis=1,
skipna=True)` after `parse_float_br` — the mean of the successfully parsed
readings of that row, NaN (`none`) when none parse. -/
def rowMare (r : MareRow) : Option ℚ :=
  let vs := r.alturas.filterMap parse_float_br
  if vs.isEmpty then none else some (vs.sum / (vs.length : ℚ))

/-- Mean of the per-day tide means over the whole file (skipping NaN days):
`df['mare_m'].mean()` as used for the backfill. -/
def dailyMeansMean (rows : List MareRow) : ℚ :=
  let ms := rows.filterMap rowMare
  ms.sum / (ms.length : ℚ)

/-- All successfully parsed individual tide readings of the file, across all
rows (what the spec claim's "all other successfully parsed tide readings"
denotes when the excluded day has no parsed reading). -/
def allParsedReadings (rows : List MareRow) : List ℚ :=
  rows.flatMap (fun r => r.alturas.filterMap parse_float_br)

/-- Tide loader `load_mare_data` (convert_real_to_synthetic_format.py lines
265-317) after `read_csv`: per-day skipna mean of the parsed readings, then
`fillna` of fully-missing days with the dataset-wide mean of the per-day
means (`none` only when every day of the file is missing). -/
def loadMare (rows : List MareRow) : List (Date × Option ℚ) :=
  let ms := rows.filterMap rowMare
  let media : Option ℚ :=
    if ms.isEmpty then none else some (ms.sum / (ms.length : ℚ))
  rows.map (fun r =>
    (⟨r.ano, r.mes, r.dia⟩, (rowMare r).orElse (fun _ => media)))

/-- Station-to-neighborhood mapping `MAPEAMENTO_POSTOS`
(convert_real_to_synthetic_format.py lines 209-238). -/
def MAPEAMENTO_POSTOS : List (String × String) := [
  ("Recife (Alto da Brasileira)", "Torre"),
  ("Recife (Codecipe / Santo Amaro)", "Santo Amaro"),
  ("Recife (Várzea)", "Várzea"),
  ("Olinda (Alto da Bondade)", "Casa Forte"),
  ("Olinda (Academia Santa Gertrudes)", "Casa Forte"),
  ("Olinda", "Casa Forte"),
  ("Jaboatão (Cidade da Copa)", "Boa Viagem"),
  ("Jaboatão dos Guararapes", "Boa Viagem"),
  ("Jaboatão dos Guararapes (Bar.Duas Unas)", "Pina"),
  ("Camaragibe", "Cordeiro"),
  ("São Lourenço da Mata (Tapacurá)", "Apipucos"),
  ("Cabo", "Boa Viagem"),
  ("Cabo (Barragem de Gurjaú)", "Ibura"),
  ("Cabo (Barragem de Suape)", "Boa Viagem"),
  ("Cabo (Pirapama)", "Ibura"),
  ("Paulista", "Madalena"),
  ("Abreu e Lima", "Madalena"),
  ("Moreno", "Ibura"),
  ("Igarassu", "Afogados"),
  ("Igarassu (Bar.Catucá)", "Afogados"),
  ("Igarassu (Usina São José)", "Afogados"),
  ("Ipojuca", "Boa Viagem"),
  ("Ipojuca (Suape)", "Boa Viagem"),
  ("Itamaracá", "Brasília Teimosa"),
  ("Itapissuma", "Brasília Teimosa"),
  ("Goiana (Itapirema - IPA)", "Coelhos"),
  ("Goiana", "Coelhos"),
  ("Araçoiaba (Granja Cristo Redentor)", "Ilha Joana Bezerra")]

/-- `df['Posto'].map(MAPEAMENTO_POSTOS)`: the neighborhood of a station, or
NaN (`none`) when the station has no mapping entry. -/
def lookupPosto (posto : String) : Option String :=
  MAPEAMENTO_POSTOS.lookup posto

/-- Month-name abbreviation map `meses`
(convert_real_to_synthetic_format.py lines 359-362). -/
def MESES : List (String × ℤ) := [
  ("jan.", 1), ("fev.", 2), ("mar.", 3), ("abr.", 4), ("mai.", 5),
  ("jun.", 6), ("jul.", 7), ("ago.", 8), ("set.", 9), ("out.", 10),
  ("nov.", 11), ("dez.", 12)]

/-- Year parser for the string produced by splitting `Mês/Ano` on a slash;
non-digit strings make `pd.to_datetime(..., errors='coerce')` produce NaT,
modelled as `none`. -/
def parseYear (s : String) : Option ℤ :=
  if !s.data.isEmpty && s.data.all Char.isDigit then
    some (natOfDigits s.data : ℤ)
  else none

/-- One row of the APAC rainfall source file: the station name `Posto`, the
`Mês/Ano` string, and the raw cells of the day columns 1..`dias.length`. -/
structure ChuvaRow where
  posto : String
  mesAno : String
  dias : List (Option String)
deriving DecidableEq

/-- Melt step of `load_chuva_data`: for each kept row, one record per day
column, with the date assembled from `Mês/Ano` and the day number and rows
with an invalid/unparseable date dropped (`errors='coerce'` + `notna`
filter), and missing rainfall filled with 0.0. -/
def meltChuva (kept : List ChuvaRow) : List (Date × String × ℚ) :=
  kept.flatMap (fun r =>
    let bairro := (lookupPosto r.posto).getD ""
    let parts := r.mesAno.splitOn "/"
    let anoOpt := (parts.get? 1).bind parseYear
    let mesOpt := MESES.lookup (parts.getD 0 "")
    (List.range r.dias.length).filterMap (fun (j0 : ℕ) =>
      let j : ℤ := Int.ofNat j0 + 1
      match anoOpt, mesOpt with
      | some y, some m =>
        if isValidDate y m j then
          some (⟨y, m, j⟩, bairro, (parse_float_br (r.dias.getD j0 none)).getD 0)
        else none
      | _, _ => none))

/-- Boolean (non-strict) order on group keys (date, then neighborhood). -/
def keyLE (a b : Date × String) : Bool :=
  dateLtB a.1 b.1 || (a.1 == b.1 && decide (a.2 ≤ b.2))

/-- Pandas `groupby(['date','bairro']).agg(mean)`: one output record per
distinct key, in sorted key order, holding the arithmetic mean of the
group's values. -/
def groupMeanChuva (l : List (Date × String × ℚ)) : List (Date × String × ℚ) :=
  let keys := (pandasDropDuplicates (l.map (fun x => (x.1, x.2.1)))).mergeSort keyLE
  keys.map (fun kk =>
    let vs := (l.filter (fun x => x.1 = kk.1 ∧ x.2.1 = kk.2)).map (fun x => x.2.2)
    (kk.1, kk.2, vs.sum / (vs.length : ℚ)))

/-- Error message raised by `load_chuva_data` when no station is mapped. -/
def chuvaEmptyMsg : String :=
  "Nenhum posto pluviométrico foi mapeado para os bairros do Recife"

/-- Rainfall loader `load_chuva_data`
(convert_real_to_synthetic_format.py lines 320-402) after `read_csv`: map
stations to neighborhoods, drop rows without a mapping, raise `ValueError`
(modelled as `Except.error`) when nothing remains, then melt day columns and
aggregate by mean over (date, neighborhood). -/
def loadChuva (rows : List ChuvaRow) : Except String (List (Date × String × ℚ)) :=
  let kept := rows.filter (fun r => (lookupPosto r.posto).isSome)
  if kept.isEmpty then Except.error chuvaEmptyMsg
  else Except.ok (groupMeanChuva (meltChuva kept))

/-- Model of the external calls of `merge_and_enrich_data`: the per-row GPS
jitter draws `np.random.normal(0, 0.0005, n_rows)` (indexed by neighborhood
position and row position within that neighborhood), the per-row Poisson
draw of `df.apply(calculate_ocorrencias)` (indexed by global row position),
and Python float `**`. -/
structure ConvEnv where
  normalLat : ℕ → ℕ → ℚ
  normalLon : ℕ → ℕ → ℚ
  poisson : ℕ → ℚ → ℕ
  fpow : ℚ → ℚ → ℚ

/-- One row of the converted table. `mare_m` is `none` when the tide value is
NaN (possible only when the tide file has no parsed reading at all). -/
structure RowC where
  date : Date
  bairro : String
  lat : ℚ
  lon : ℚ
  altitude : ℤ
  vulnerabilidade : ℚ
  densidade_pop : ℤ
  chuva_mm : ℚ
  mare_m : Option ℚ
  ocorrencias : ℕ
  tipo_bairro : String
deriving DecidableEq

/-- The λ computed by `calculate_ocorrencias`
(convert_real_to_synthetic_format.py lines 405-457) inside the conversion
pipeline, on the exact-rational carrier: a NaN tide (`none`) makes the
comparison `row['mare_m'] > 1.0` false, so the tide sub-score is 0. -/
def calcOcorrLambda (fpow : ℚ → ℚ → ℚ) (tipo : String) (chuva : ℚ)
    (mare : Option ℚ) (riscoChuva riscoMare vuln dens : ℚ) : ℚ :=
  let f := fatoresConv tipo
  let riscoChuvaNorm := chuva / 50.0 * riscoChuva * f.2.1
  let riscoMareNorm :=
    match mare with
    | some m => if m > 1.0 then (m - 1.0) / 0.5 * riscoMare * f.1 else 0
    | none => 0
  let riscoVulnNorm := vuln * f.2.2
  let lambdaTotal0 := 0.5 +
    (riscoChuvaNorm * 0.4 + riscoMareNorm * 0.35 + riscoVulnNorm * 0.25)
  let lambdaTotal1 := lambdaTotal0 * fpow (dens / 10000) 0.3
  max 0 (min lambdaTotal1 15.0)

/-- Boolean (non-strict) date-then-neighborhood-name row ordering for
converted tables, the key of `sort_values(['date', 'bairro'])`. -/
def rowCLE (a b : RowC) : Bool :=
  dateLtB a.date b.date || (a.date == b.date && decide (a.bairro ≤ b.bairro))

/-- Boolean (non-strict) order on dates. -/
def dateLEB (a b : Date) : Bool := dateLtB a b || a == b

/-- `merge_and_enrich_data` (convert_real_to_synthetic_format.py lines
463-559): cartesian product of all dates of either source with all registry
neighborhoods, left-joined tide (backfilled with the tide mean) and rainfall
(backfilled with 0), static attributes and GPS jitter, `calculate_ocorrencias`
per row, rounding, and the final `sort_values(['date', 'bairro'])`. -/
def mergeEnrich (cenv : ConvEnv) (dfMare : List (Date × Option ℚ))
    (dfChuva : List (Date × String × ℚ)) : List RowC :=
  let allDates :=
    (pandasDropDuplicates
      (dfMare.map Prod.fst ++ dfChuva.map Prod.fst)).mergeSort dateLEB
  let mareVals := dfMare.filterMap Prod.snd
  let mareMean : Option ℚ :=
    if mareVals.isEmpty then none
    else some (mareVals.sum / (mareVals.length : ℚ))
  let chuvaKeyed := dfChuva.map (fun x => ((x.1, x.2.1), x.2.2))
  let rows := allDates.enum.flatMap (fun dd =>
    BAIRROS_RECIFE.enum.map (fun bb =>
      let di := dd.1
      let dt := dd.2
      let bi := bb.1
      let info := bb.2.2
      let mareV : Option ℚ := ((dfMare.lookup dt).join).orElse (fun _ => mareMean)
      let chuvaV : ℚ := (chuvaKeyed.lookup (dt, bb.2.1)).getD 0
      let lam := calcOcorrLambda cenv.fpow info.tipo chuvaV mareV
        info.risco_chuva info.risco_mare info.vulnerabilidade
        (info.densidade_pop : ℚ)
      { date := dt, bairro := bb.2.1,
        lat := roundTo (info.lat + cenv.normalLat bi di) 6,
        lon := roundTo (info.lon + cenv.normalLon bi di) 6,
        altitude := info.altitude,
        vulnerabilidade := roundTo info.vulnerabilidade 3,
        densidade_pop := info.densidade_pop,
        chuva_mm := roundTo chuvaV 2,
        mare_m := mareV.map (fun m => roundTo m 3),
        ocorrencias :=
          cenv.poisson (di * BAIRROS_RECIFE.length + bi) lam,
        tipo_bairro := info.tipo }))
  rows.mergeSort rowCLE

/-- Cell of a modelled pandas DataFrame; `null` models NaN/NaT. -/
inductive Cell where
  | int (z : ℤ)
  | float (q : ℚ)
  | str (s : String)
  | dt (dte : Date)
  | null
deriving DecidableEq

/-- Modelled pandas DataFrame: named columns of cells. -/
structure PDataFrame where
  cols : List (String × List Cell)
deriving DecidableEq

/-- Column names, in order. -/
def PDataFrame.columns (df : PDataFrame) : List String := df.cols.map Prod.fst

/-- Cells of a named column (first matching column). -/
def PDataFrame.getCol (df : PDataFrame) (c : String) : List Cell :=
  (df.cols.lookup c).getD []

/-- Validation errors collected by `validate_dataframe`, with the data each
formatted message carries. -/
inductive VErr where
  | missingCols (cols : List String)
  | dateNotDatetime
  | notNumeric (col : String)
  | notInteger (col : String)
  | vulnOutOfRange (n : ℕ)
  | latOutOfRange (n : ℕ)
  | lonOutOfRange (n : ℕ)
  | duplicates (n : ℕ)
  | missingValues (cols : List (String × ℕ))
deriving DecidableEq

/-- Required output columns (convert_real_to_synthetic_format.py lines
584-587). -/
def requiredCols : List String :=
  ["date", "bairro", "lat", "lon", "altitude", "vulnerabilidade",
   "densidade_pop", "chuva_mm", "mare_m", "ocorrencias", "tipo_bairro"]

/-- A cell counts as numeric (models `is_numeric_dtype`). -/
def cellIsNumeric : Cell → Bool
  | Cell.int _ => true
  | Cell.float _ => true
  | _ => false

/-- A cell counts as integer (models `is_integer_dtype`). -/
def cellIsInt : Cell → Bool
  | Cell.int _ => true
  | _ => false

/-- A cell counts as datetime (models `is_datetime64_any_dtype`). -/
def cellIsDt : Cell → Bool
  | Cell.dt _ => true
  | _ => false

/-- A cell is missing (models `isnull`). -/
def cellIsNull : Cell → Bool
  | Cell.null => true
  | _ => false

/-- Numeric value of a cell, when it has one. -/
def cellValQ : Cell → Option ℚ
  | Cell.int z => some (z : ℚ)
  | Cell.float q => some q
  | _ => none

/-- Count of cells whose numeric value violates a predicate (non-numeric
cells never violate, as NaN comparisons are false in pandas). -/
def countBad (cells : List Cell) (bad : ℚ → Bool) : ℕ :=
  (cells.filter (fun c =>
    match cellValQ c with
    | some q => bad q
    | none => false)).length

/-- Later occurrences of already-seen keys (models
`df.duplicated(subset).sum()`). -/
def countDupsAux {α : Type} [DecidableEq α] (seen : List α) : List α → ℕ
  | [] => 0
  | a :: rest =>
    (if a ∈ seen then 1 else 0) + countDupsAux (a :: seen) rest

/-- Number of duplicated keys in a list (first occurrence not counted). -/
def countDups {α : Type} [DecidableEq α] (l : List α) : ℕ := countDupsAux [] l

/-- Dataset validator `validate_dataframe`
(convert_real_to_synthetic_format.py lines 562-642): collects every
violation, in source order, and is valid iff no violation was collected. -/
def validate_dataframe (df : PDataFrame) : Bool × List VErr :=
  let missing := requiredCols.filter (fun c => !(df.columns.contains c))
  let e1 : List VErr :=
    if missing.isEmpty then [] else [VErr.missingCols missing]
  let e2 : List VErr :=
    if df.columns.contains "date" && !((df.getCol "date").all cellIsDt) then
      [VErr.dateNotDatetime]
    else []
  let e3 : List VErr :=
    ((["lat", "lon", "vulnerabilidade", "chuva_mm", "mare_m"].filter
      (fun c => df.columns.contains c &&
        !((df.getCol c).all cellIsNumeric))).map VErr.notNumeric)
  let e4 : List VErr :=
    ((["altitude", "densidade_pop", "ocorrencias"].filter
      (fun c => df.columns.contains c &&
        !((df.getCol c).all cellIsInt))).map VErr.notInteger)
  let e5 : List VErr :=
    if df.columns.contains "vulnerabilidade" then
      let n := countBad (df.getCol "vulnerabilidade")
        (fun q => decide (q < 0) || decide (q > 1))
      if n > 0 then [VErr.vulnOutOfRange n] else []
    else []
  let e6 : List VErr :=
    if df.columns.contains "lat" then
      let n := countBad (df.getCol "lat")
        (fun q => decide (q < -8.2) || decide (q > -7.9))
      if n > 0 then [VErr.latOutOfRange n] else []
    else []
  let e7 : List VErr :=
    if df.columns.contains "lon" then
      let n := countBad (df.getCol "lon")
        (fun q => decide (q < -35.0) || decide (q > -34.8))
      if n > 0 then [VErr.lonOutOfRange n] else []
    else []
  let e8 : List VErr :=
    if df.columns.contains "date" && df.columns.contains "bairro" then
      let n := countDups ((df.getCol "date").zip (df.getCol "bairro"))
      if n > 0 then [VErr.duplicates n] else []
    else []
  let nullCols := df.cols.filterMap (fun c =>
    let n := (c.2.filter cellIsNull).length
    if n > 0 then some (c.1, n) else none)
  let e9 : List VErr :=
    if nullCols.isEmpty then [] else [VErr.missingValues nullCols]
  let errors := e1 ++ e2 ++ e3 ++ e4 ++ e5 ++ e6 ++ e7 ++ e8 ++ e9
  (errors.isEmpty, errors)

/-- Steps 4-5 of `main` (convert_real_to_synthetic_format.py lines 760-769):
validate the assembled table and persist (`save_converted_data`) only when it
is valid; `none` models returning the error code with nothing written. -/
def pipelineFinalize (df : PDataFrame) : Option PDataFrame :=
  if (validate_dataframe df).1 then some df else none

/-- Concrete all-zero random stream used to instantiate the universally
quantified theorems on explicit inputs (`uniform` returns the lower bound,
so the distributional contract `EnvSane` holds). -/
def env0 : Env :=
  { gamma := fun _ _ _ => 0, rand := fun _ => 0,
    uniform := fun _ a _ => a, normal := fun _ _ _ => 0,
    poisson := fun _ _ => 0 }

/-- Concrete external-function model (constant calendar and zero `sin`,
`pi`, `**`) for explicit-input instantiations. -/
def ext0 : Ext :=
  { month := fun _ => 1, dayOfYear := fun _ => 1, sin := fun _ => 0,
    pi := 0, fpow := fun _ _ => 0 }

/-- Concrete seed-to-stream family: every seed yields `env0`. -/
def envOf0 : ℕ → Env := fun _ => env0

/-- Concrete tide file: day 1 parses to readings 1.0 and 3.0 (daily mean 2),
day 2 parses to the single reading 4.0 (daily mean 4), and day 3 has all
four readings missing. -/
def mareRows0 : List MareRow := [
  { dia := 1, mes := 1, ano := 2024,
    alturas := [some "1,0", some "3,0", none, none] },
  { dia := 2, mes := 1, ano := 2024,
    alturas := [some "4,0", some "-", some "-", some "-"] },
  { dia := 3, mes := 1, ano := 2024,
    alturas := [some "-", some "-", some "-", some "-"] }]

/-- Concrete rainfall file whose only station has no mapping entry. -/
def chuvaRowsUnmapped : List ChuvaRow :=
  [{ posto := "Posto Desconhecido", mesAno := "jan./2024",
     dias := [some "5,0"] }]

/-- Concrete rainfall file with one mapped station. -/
def chuvaRowsMapped : List ChuvaRow :=
  [{ posto := "Camaragibe", mesAno := "jan./2024",
     dias := [some "5,0"] }]

/-- Concrete assembled table with no columns at all — in particular the
`altitude` column is absent. -/
def dfNoAltitude : PDataFrame := { cols := [] }

/-- Sort key of a generator row: its date and neighborhood name. -/
def keyOf (r : Row) : ℤ × String := (r.date, r.bairro)

/-- Boolean date-then-name order on generator sort keys. -/
def keyGLE (p q : ℤ × String) : Bool :=
  p.1 < q.1 || (p.1 == q.1 && decide (p.2 ≤ q.2))

/-! ## Theorems -/

/-- Both category-factor chains define the same lookup. -/
theorem fatoresConv_eq_fatoresGen : fatoresConv = fatoresGen := rfl

/-- C1: for every neighborhood, with rainfall 0, tide exactly 1.0 and
vulnerability 0, the generator's occurrence rate λ after density scaling but
before clamping is exactly `0.5 · (density/10000)^0.3`, for every category
string and all sensitivity coefficients. -/
theorem lambda_neutral_inputs_reduce (tipo : String)
    (riscoChuva riscoMare dens : ℝ) :
    lambdaGenPre tipo 0 1.0 riscoChuva riscoMare 0 dens =
      0.5 * (dens / 10000) ^ (0.3 : ℝ) := by
  simp only [lambdaGenPre, lambdaGenBase]
  norm_num

/-- C2: the λ computed by the conversion pipeline's `calculate_ocorrencias`
coincides with the λ computed inline by the generator, for every category,
every environmental input, every sensitivity coefficient and every density:
same factors, same sub-scores (tide score zero at tide ≤ 1.0), same
weights 0.4/0.35/0.25 over base 0.5, same `(density/10000)^0.3` scaling,
same clamp to [0, 15]. -/
theorem converter_lambda_equals_generator_lambda (tipo : String)
    (chuva mare riscoChuva riscoMare vuln dens : ℝ) :
    lambdaConv tipo chuva mare riscoChuva riscoMare vuln dens =
      lambdaGen tipo chuva mare riscoChuva riscoMare vuln dens := rfl

/-- C3 counterexample: two generator runs with the same seed (42) and the
same `n_days` (2), but performed on different calendar days (the date range
ends at `pd.Timestamp.today()`), produce different tables — already their
`date` columns differ. -/
theorem generator_output_depends_on_run_date :
    generateDataSeeded envOf0 ext0 42 2 100 ≠
      generateDataSeeded envOf0 ext0 42 2 101 := by
  intro h
  exact absurd (congrArg datesOf h) (by decide)

/-- C3 amended: the generator's output is a function of the seed, `n_days`
and the run date alone — two runs with identical seed, identical `n_days`
and the same current date produce identical tables (all randomness comes
from the single stream `envOf seed` fixed by `np.random.seed`). -/
theorem generator_deterministic_same_run_date (envOf : ℕ → Env) (ext : Ext)
    (seed1 seed2 nDays1 nDays2 : ℕ) (today1 today2 : ℤ)
    (hs : seed1 = seed2) (hn : nDays1 = nDays2) (ht : today1 = today2) :
    generateDataSeeded envOf ext seed1 nDays1 today1 =
      generateDataSeeded envOf ext seed2 nDays2 today2 := by
  subst hs
  subst hn
  subst ht
  rfl

/-- Witness for the amended C3 at seed 42, 3 days, run date 200. -/
theorem generator_deterministic_same_run_date_witness :
    generateDataSeeded envOf0 ext0 42 3 200 =
      generateDataSeeded envOf0 ext0 42 3 200 :=
  generator_deterministic_same_run_date envOf0 ext0 42 42 3 3 200 200
    rfl rfl rfl

/-- C5 counterexample: a rainfall file whose only station has no mapping
entry makes `load_chuva_data` raise `ValueError` — so the presence of
unmapped stations is not non-fatal for every number of unmapped stations. -/
theorem load_chuva_all_unmapped_fails :
    loadChuva chuvaRowsUnmapped = Except.error chuvaEmptyMsg := rfl

/-- C5 amended: rows of unmapped stations are dropped from the output
(removing them from the input does not change the result), and the load
fails with the `ValueError` message exactly when every row's station is
unmapped; with at least one mapped row it succeeds. -/
theorem load_chuva_unmapped_spec (rows : List ChuvaRow) :
    loadChuva rows =
      loadChuva (rows.filter (fun r => (lookupPosto r.posto).isSome)) ∧
    (loadChuva rows = Except.error chuvaEmptyMsg ↔
      (rows.filter (fun r => (lookupPosto r.posto).isSome)).isEmpty = true) := by
  constructor
  · unfold loadChuva
    rw [List.filter_filter]
    simp only [Bool.and_self]
  · unfold loadChuva
    cases hk : (rows.filter (fun r => (lookupPosto r.posto).isSome)).isEmpty
    · simp [hk]
    · simp [hk]

/-- C8 counterexample: the risk-index functions the repository actually
defines do not have the claimed shape — the composite score is not confined
to [0, 1] (it is 30 at occurrences 0, vulnerability 1, rain 0, tide 0),
rainfall is not capped at 100 mm (200 mm scores differently from 100 mm),
and the bucket cut points are 0.5/0.7, not 0.3/0.6 (probability 0.45 is
already "low", 0.55 is "moderate"). -/
theorem risk_index_shape_counterexample :
    calculate_risk_score 0 1 0 0 none = 30 ∧
    calculate_risk_score 0 0 200 0 none = 40 ∧
    calculate_risk_score 0 0 100 0 none = 20 ∧
    (get_risk_level (45/100)).level = "RISCO BAIXO" ∧
    (get_risk_level (55/100)).level = "RISCO MODERADO" := by
  refine ⟨?_, ?_, ?_, ?_, ?_⟩ <;>
    norm_num [calculate_risk_score, defaultRWeights, get_risk_level]

/-- C8 amended: the repository's second risk-index pair lives in the
dashboard utilities (not in the conversion pipeline's validator): with
default weights, `calculate_risk_score` is the unbounded weighted sum
`0.4·occurrences + 0.3·(vulnerability·100) + 0.2·rainfall + 0.1·(tide·10)`
with no caps, and `get_risk_level` buckets a probability into
low/moderate/high at the fixed cut points 0.5 and 0.7. -/
theorem dashboard_risk_index_spec :
    (∀ o v c m : ℚ, calculate_risk_score o v c m none =
      o * 0.4 + v * 100 * 0.3 + c * 0.2 + m * 10 * 0.1) ∧
    (∀ p : ℚ, p ≤ 0.5 → (get_risk_level p).level = "RISCO BAIXO") ∧
    (∀ p : ℚ, 0.5 < p → p ≤ 0.7 →
      (get_risk_level p).level = "RISCO MODERADO") ∧
    (∀ p : ℚ, 0.7 < p → (get_risk_level p).level = "RISCO ALTO") := by
  refine ⟨?_, ?_, ?_, ?_⟩
  · intro o v c m
    norm_num [calculate_risk_score, defaultRWeights]
  · intro p hp
    rw [get_risk_level, if_neg (by linarith), if_neg (by linarith)]
  · intro p hp1 hp2
    rw [get_risk_level, if_neg (by linarith), if_pos (by linarith)]
  · intro p hp
    rw [get_risk_level, if_pos (by linarith)]

/-- Witness for the amended C8 at probability 0.6 (moderate bucket). -/
theorem dashboard_risk_index_spec_witness :
    (get_risk_level (6/10)).level = "RISCO MODERADO" :=
  dashboard_risk_index_spec.2.2.1 (6/10) (by norm_num) (by norm_num)

/-- C10: the Brazilian-locale parser is a total function: missing values,
the hyphen and the empty string map to NaN, an unparseable string maps to
NaN, and every other string is converted after replacing commas by dots —
in particular "1,8" parses to 1.8. -/
theorem parse_float_br_spec :
    parse_float_br none = none ∧
    parse_float_br (some "-") = none ∧
    parse_float_br (some "") = none ∧
    parse_float_br (some "abc") = none ∧
    parse_float_br (some "1,8") = some (9/5) ∧
    (∀ s : String, s ≠ "-" → s ≠ "" →
      parse_float_br (some s) = pythonFloat (commaToDot s)) := by
  refine ⟨rfl, by decide, by decide, by decide, ?_, ?_⟩
  · have h1 : parse_float_br (some "1,8") =
        some ((natOfDigits ['1'] : ℚ) + (natOfDigits ['8'] : ℚ) / 10 ^ (1 : ℕ)) := rfl
    have h2 : natOfDigits ['1'] = 1 := rfl
    have h3 : natOfDigits ['8'] = 8 := rfl
    rw [h1, h2, h3]
    norm_num
  intro s h1 h2
  show (if s = "-" ∨ s = "" then none else pythonFloat (commaToDot s)) =
    pythonFloat (commaToDot s)
  exact if_neg (by simp [h1, h2])

/-- Witness for C10's universal clause at the concrete string "2,5". -/
theorem parse_float_br_spec_witness :
    parse_float_br (some "2,5") = pythonFloat (commaToDot "2,5") :=
  parse_float_br_spec.2.2.2.2.2 "2,5" (by decide) (by decide)

/-- Rounding preserves non-negativity. -/
theorem roundTo_nonneg (n : ℕ) {x : ℚ} (h : 0 ≤ x) : 0 ≤ roundTo x n := by
  unfold roundTo
  apply div_nonneg _ (by positivity)
  have h1 : (0 : ℚ) ≤ x * 10 ^ n := by positivity
  have h2 : (0 : ℤ) ≤ ⌊x * (10 : ℚ) ^ n + 1 / 2⌋ := by
    apply Int.le_floor.mpr
    push_cast
    linarith
  exact_mod_cast h2

/-- Rounding preserves the upper bound 1. -/
theorem roundTo_le_one (n : ℕ) {x : ℚ} (h : x ≤ 1) : roundTo x n ≤ 1 := by
  unfold roundTo
  rw [div_le_one (by positivity)]
  have hx : x * (10 : ℚ) ^ n ≤ 10 ^ n := by
    have := mul_le_mul_of_nonneg_right h
      (pow_nonneg (by norm_num : (0 : ℚ) ≤ 10) n)
    simpa using this
  have h2 : ⌊x * (10 : ℚ) ^ n + 1 / 2⌋ < (10 : ℤ) ^ n + 1 := by
    rw [Int.floor_lt]
    push_cast
    linarith
  have h3 : ⌊x * (10 : ℚ) ^ n + 1 / 2⌋ ≤ (10 : ℤ) ^ n := by omega
  exact_mod_cast h3

/-- Rounding to three decimals preserves the lower bound 1/2. -/
theorem roundTo_ge_half {x : ℚ} (h : 1 / 2 ≤ x) : 1 / 2 ≤ roundTo x 3 := by
  unfold roundTo
  rw [le_div_iff₀ (by norm_num)]
  have h2 : (500 : ℤ) ≤ ⌊x * (10 : ℚ) ^ (3 : ℕ) + 1 / 2⌋ := by
    apply Int.le_floor.mpr
    push_cast
    nlinarith
  calc (1 / 2 : ℚ) * 10 ^ (3 : ℕ) = ((500 : ℤ) : ℚ) := by norm_num
    _ ≤ _ := by exact_mod_cast h2

/-- The generated rainfall is non-negative whenever the uniform sampler
respects its support. -/
theorem genRowChuva_nonneg {env : Env} (ext : Ext) (d : ℤ) (k : ℕ)
    (hS : EnvSane env) : 0 ≤ genRowChuva env ext d k := by
  simp only [genRowChuva]
  split
  · have hu := (hS (k + 2) 2.0 4.0 (by norm_num)).1
    exact mul_nonneg (le_max_left 0 _) (by norm_num at hu ⊢; linarith)
  · exact le_max_left 0 _

/-- The generated tide is at least 1/2 (the `max(0.5, ...)` clamp). -/
theorem genRowMare_ge_half (env : Env) (ext : Ext) (d : ℤ) (k1 : ℕ) :
    1 / 2 ≤ genRowMare env ext d k1 := by
  simp only [genRowMare]
  have h : (1 / 2 : ℚ) ≤ 0.5 := by norm_num
  exact le_trans h (le_max_left _ _)

/-- Field invariants of a single generated row. -/
theorem genRow_invariants {env : Env} (ext : Ext) (hS : EnvSane env)
    (b : String) (info : BairroInfo) (d : ℤ) (k : ℕ)
    (h0 : 0 ≤ info.vulnerabilidade) (h1 : info.vulnerabilidade ≤ 1) :
    0 ≤ (genRow env ext b info d k).1.vulnerabilidade ∧
    (genRow env ext b info d k).1.vulnerabilidade ≤ 1 ∧
    0 ≤ (genRow env ext b info d k).1.chuva_mm ∧
    (1 / 2 : ℚ) ≤ (genRow env ext b info d k).1.mare_m ∧
    0 ≤ (genRow env ext b info d k).1.ocorrencias := by
  refine ⟨?_, ?_, ?_, ?_, Nat.zero_le _⟩ <;> simp only [genRow]
  · exact roundTo_nonneg 3 h0
  · exact roundTo_le_one 3 h1
  · exact roundTo_nonneg 2 (genRowChuva_nonneg ext d k hS)
  · exact roundTo_ge_half (genRowMare_ge_half env ext d _)

/-- Every row of the per-neighborhood date loop is some `genRow` output. -/
theorem mem_genRowsDates {env : Env} {ext : Ext} {b : String}
    {info : BairroInfo} :
    ∀ {ds : List ℤ} {k : ℕ} {r : Row},
      r ∈ (genRowsDates env ext b info ds k).1 →
      ∃ d k0, r = (genRow env ext b info d k0).1 := by
  intro ds
  induction ds with
  | nil => intro k r h; simp [genRowsDates] at h
  | cons d ds ih =>
    intro k r h
    simp only [genRowsDates, List.mem_cons] at h
    rcases h with h | h
    · exact ⟨d, k, h⟩
    · exact ih h

/-- Every row of the full neighborhood loop is some `genRow` output for a
registry entry. -/
theorem mem_genAllRows {env : Env} {ext : Ext} :
    ∀ {bs : List (String × BairroInfo)} {ds : List ℤ} {k : ℕ} {r : Row},
      r ∈ (genAllRows env ext bs ds k).1 →
      ∃ p ∈ bs, ∃ d k0, r = (genRow env ext p.1 p.2 d k0).1 := by
  intro bs
  induction bs with
  | nil => intro ds k r h; simp [genAllRows] at h
  | cons bb bs ih =>
    intro ds k r h
    simp only [genAllRows, List.mem_append] at h
    rcases h with h | h
    · obtain ⟨d, k0, hr⟩ := mem_genRowsDates h
      exact ⟨bb, List.mem_cons_self _ _, d, k0, hr⟩
    · obtain ⟨p, hp, rest⟩ := ih h
      exact ⟨p, List.mem_cons_of_mem _ hp, rest⟩

/-- Duplicate removal only removes rows. -/
theorem mem_of_mem_dropDupAux {α : Type} [DecidableEq α] :
    ∀ {l seen : List α} {a : α}, a ∈ dropDupAux seen l → a ∈ l := by
  intro l
  induction l with
  | nil => intro seen a h; simp [dropDupAux] at h
  | cons x t ih =>
    intro seen a h
    by_cases hx : x ∈ seen
    · simp only [dropDupAux] at h
      rw [if_pos hx] at h
      exact List.mem_cons_of_mem _ (ih h)
    · simp only [dropDupAux] at h
      rw [if_neg hx] at h
      rcases List.mem_cons.mp h with h | h
      · exact h ▸ List.mem_cons_self _ _
      · exact List.mem_cons_of_mem _ (ih h)

/-- Membership transfer for `pandasDropDuplicates`. -/
theorem mem_of_mem_pandasDropDuplicates {α : Type} [DecidableEq α]
    {l : List α} {a : α} (h : a ∈ pandasDropDuplicates l) : a ∈ l :=
  mem_of_mem_dropDupAux h

/-- Every registry vulnerability index lies in [0, 1]. -/
theorem bairros_vuln_bounds :
    ∀ p ∈ BAIRROS_RECIFE, 0 ≤ p.2.vulnerabilidade ∧ p.2.vulnerabilidade ≤ 1 := by
  intro p hp
  fin_cases hp <;> exact ⟨by norm_num, by norm_num⟩

/-- C9: every row of a generated table satisfies
`0 ≤ vulnerabilidade ≤ 1`, `chuva_mm ≥ 0`, `mare_m ≥ 0.5` and
`ocorrencias ≥ 0` (an integer count), for every seed, every `n_days`, every
run date, and every random stream whose uniform sampler respects its
support. -/
theorem generated_rows_invariants (envOf : ℕ → Env) (ext : Ext)
    (seed nDays : ℕ) (today : ℤ) (hS : EnvSane (envOf seed)) :
    ∀ r ∈ generateDataSeeded envOf ext seed nDays today,
      0 ≤ r.vulnerabilidade ∧ r.vulnerabilidade ≤ 1 ∧
      0 ≤ r.chuva_mm ∧ (1 / 2 : ℚ) ≤ r.mare_m ∧ 0 ≤ r.ocorrencias := by
  intro r hr
  have hr2 : r ∈ (genAllRows (envOf seed) ext BAIRROS_RECIFE
      (dateRange today nDays) 0).1 :=
    mem_of_mem_pandasDropDuplicates hr
  obtain ⟨p, hp, d, k0, hr3⟩ := mem_genAllRows hr2
  obtain ⟨h0, h1⟩ := bairros_vuln_bounds p hp
  subst hr3
  exact genRow_invariants ext hS p.1 p.2 d k0 h0 h1

/-- The head of a non-empty list is a member. -/
theorem headI_mem_of_ne_nil {α : Type} [Inhabited α] :
    ∀ (l : List α), l ≠ [] → l.headI ∈ l := by
  intro l h
  cases l with
  | nil => exact absurd rfl h
  | cons a t => exact List.mem_cons_self _ _

/-- The all-zero stream satisfies the uniform-support contract. -/
theorem env0_sane : EnvSane env0 := by
  intro k a b hab
  exact ⟨le_refl a, hab⟩

/-- Witness for C9: the first row of the concrete run with seed 42 and one
day satisfies the invariants. -/
theorem generated_rows_invariants_witness :
    0 ≤ ((generateDataSeeded envOf0 ext0 42 1 0).headI).vulnerabilidade ∧
    ((generateDataSeeded envOf0 ext0 42 1 0).headI).vulnerabilidade ≤ 1 ∧
    0 ≤ ((generateDataSeeded envOf0 ext0 42 1 0).headI).chuva_mm ∧
    (1 / 2 : ℚ) ≤ ((generateDataSeeded envOf0 ext0 42 1 0).headI).mare_m ∧
    0 ≤ ((generateDataSeeded envOf0 ext0 42 1 0).headI).ocorrencias :=
  generated_rows_invariants envOf0 ext0 42 1 0 env0_sane _
    (headI_mem_of_ne_nil _
      (fun h => absurd (congrArg datesOf h) (by decide)))

/-- The validator's validity bit is exactly the emptiness of its error
list. -/
theorem validate_fst_eq (df : PDataFrame) :
    (validate_dataframe df).1 = (validate_dataframe df).2.isEmpty := rfl

/-- C6: a table lacking the `altitude` column is rejected — the validator
returns invalid, its error list contains the missing-columns error naming
`altitude`, and the pipeline does not persist the table. -/
theorem validator_rejects_missing_altitude (df : PDataFrame)
    (h : df.columns.contains "altitude" = false) :
    (validate_dataframe df).1 = false ∧
    (VErr.missingCols (requiredCols.filter (fun c => !(df.columns.contains c))) ∈
        (validate_dataframe df).2 ∧
      "altitude" ∈ requiredCols.filter (fun c => !(df.columns.contains c))) ∧
    pipelineFinalize df = none := by
  have halt : "altitude" ∈ requiredCols.filter (fun c => !(df.columns.contains c)) := by
    rw [List.mem_filter]
    refine ⟨by decide, ?_⟩
    rw [h]
    rfl
  have hne : (requiredCols.filter (fun c => !(df.columns.contains c))).isEmpty = false := by
    cases hl : requiredCols.filter (fun c => !(df.columns.contains c)) with
    | nil => exact absurd (hl ▸ halt) (List.not_mem_nil _)
    | cons a t => rfl
  have hmem : VErr.missingCols
      (requiredCols.filter (fun c => !(df.columns.contains c))) ∈
      (validate_dataframe df).2 := by
    simp only [validate_dataframe]
    rw [hne]
    simp
  have hfst : (validate_dataframe df).1 = false := by
    rw [validate_fst_eq]
    cases hl : (validate_dataframe df).2 with
    | nil => exact absurd (hl ▸ hmem) (List.not_mem_nil _)
    | cons a t => rfl
  refine ⟨hfst, ⟨hmem, halt⟩, ?_⟩
  simp [pipelineFinalize, hfst]

/-- Witness for C6 at a concrete table with no columns. -/
theorem validator_rejects_missing_altitude_witness :
    (validate_dataframe dfNoAltitude).1 = false ∧
    (VErr.missingCols
        (requiredCols.filter (fun c => !(dfNoAltitude.columns.contains c))) ∈
        (validate_dataframe dfNoAltitude).2 ∧
      "altitude" ∈
        requiredCols.filter (fun c => !(dfNoAltitude.columns.contains c))) ∧
    pipelineFinalize dfNoAltitude = none :=
  validator_rejects_missing_altitude dfNoAltitude rfl

/-- Transitivity of the strict date order. -/
theorem dateLtB_trans {a b c : Date} (h1 : dateLtB a b = true)
    (h2 : dateLtB b c = true) : dateLtB a c = true := by
  cases a
  cases b
  cases c
  simp only [dateLtB, Bool.or_eq_true, Bool.and_eq_true, beq_iff_eq,
    decide_eq_true_eq] at h1 h2 ⊢
  omega

/-- Two dates that are not strictly ordered either way are equal. -/
theorem dateLtB_eq_of_not_both {a b : Date} (h1 : dateLtB a b = false)
    (h2 : dateLtB b a = false) : a = b := by
  cases a
  cases b
  rw [Bool.eq_false_iff] at h1 h2
  simp only [dateLtB, ne_eq, Bool.or_eq_true, Bool.and_eq_true, beq_iff_eq,
    decide_eq_true_eq, not_or, not_and, not_lt, Date.mk.injEq] at h1 h2 ⊢
  omega

/-- Transitivity of the converter row order. -/
theorem rowCLE_trans (a b c : RowC) (hab : rowCLE a b = true)
    (hbc : rowCLE b c = true) : rowCLE a c = true := by
  simp only [rowCLE, Bool.or_eq_true, Bool.and_eq_true, beq_iff_eq,
    decide_eq_true_eq] at hab hbc ⊢
  rcases hab with hab | ⟨hab1, hab2⟩
  · rcases hbc with hbc | ⟨hbc1, hbc2⟩
    · exact Or.inl (dateLtB_trans hab hbc)
    · exact Or.inl (by rw [← hbc1]; exact hab)
  · rcases hbc with hbc | ⟨hbc1, hbc2⟩
    · exact Or.inl (by rw [hab1]; exact hbc)
    · exact Or.inr ⟨hab1.trans hbc1, le_trans hab2 hbc2⟩

/-- Totality of the converter row order. -/
theorem rowCLE_total (a b : RowC) : (rowCLE a b || rowCLE b a) = true := by
  simp only [rowCLE, Bool.or_eq_true, Bool.and_eq_true, beq_iff_eq,
    decide_eq_true_eq]
  cases hab : dateLtB a.date b.date
  · cases hba : dateLtB b.date a.date
    · have he := dateLtB_eq_of_not_both hab hba
      rcases le_total a.bairro b.bairro with h | h
      · exact Or.inl (Or.inr ⟨he, h⟩)
      · exact Or.inr (Or.inr ⟨he.symm, h⟩)
    · exact Or.inr (Or.inl rfl)
  · exact Or.inl (Or.inl rfl)

/-- C7 amended: every table produced by the conversion pipeline is sorted by
date first and then by neighborhood name (the final
`sort_values(['date', 'bairro'])`), for every input and every random
stream. -/
theorem converter_output_sorted (cenv : ConvEnv)
    (dfMare : List (Date × Option ℚ)) (dfChuva : List (Date × String × ℚ)) :
    (mergeEnrich cenv dfMare dfChuva).Pairwise (fun a b => rowCLE a b = true) := by
  simp only [mergeEnrich]
  exact List.sorted_mergeSort rowCLE_trans rowCLE_total _

/-- The generator row order depends only on the (date, name) key. -/
theorem isSortedBy_map_keyOf :
    ∀ l : List Row, isSortedBy rowGLE l = isSortedBy keyGLE (l.map keyOf)
  | [] => rfl
  | [_] => rfl
  | a :: b :: t => by
    show (rowGLE a b && isSortedBy rowGLE (b :: t)) =
      (keyGLE (keyOf a) (keyOf b) && isSortedBy keyGLE ((b :: t).map keyOf))
    rw [isSortedBy_map_keyOf (b :: t)]
    rfl

/-- Keys of the per-neighborhood date loop: the dates in order, paired with
the neighborhood name. -/
theorem keys_genRowsDates (env : Env) (ext : Ext) (b : String)
    (info : BairroInfo) :
    ∀ (ds : List ℤ) (k : ℕ),
      ((genRowsDates env ext b info ds k).1).map keyOf =
        ds.map (fun d => (d, b)) := by
  intro ds
  induction ds with
  | nil => intro k; rfl
  | cons d ds ih =>
    intro k
    show keyOf (genRow env ext b info d k).1 ::
        ((genRowsDates env ext b info ds
          ((genRow env ext b info d k).2)).1).map keyOf =
      (d, b) :: ds.map (fun d => (d, b))
    rw [ih]
    rfl

/-- Keys of the full loop: neighborhood-major, date-minor. -/
theorem keys_genAllRows (env : Env) (ext : Ext) :
    ∀ (bs : List (String × BairroInfo)) (ds : List ℤ) (k : ℕ),
      ((genAllRows env ext bs ds k).1).map keyOf =
        bs.flatMap (fun b => ds.map (fun d => (d, b.1))) := by
  intro bs
  induction bs with
  | nil => intro ds k; rfl
  | cons bb bs ih =>
    intro ds k
    show ((genRowsDates env ext bb.1 bb.2 ds k).1 ++
        (genAllRows env ext bs ds
          ((genRowsDates env ext bb.1 bb.2 ds k).2)).1).map keyOf = _
    rw [List.map_append, keys_genRowsDates, ih]
    simp [List.flatMap_cons]

/-- Duplicate removal is the identity on duplicate-free lists. -/
theorem dropDupAux_eq_self {α : Type} [DecidableEq α] :
    ∀ (l seen : List α), l.Nodup → (∀ a ∈ l, a ∉ seen) →
      dropDupAux seen l = l := by
  intro l
  induction l with
  | nil => intro seen _ _; rfl
  | cons x t ih =>
    intro seen hnd hs
    have hx : x ∉ seen := hs x (List.mem_cons_self _ _)
    simp only [dropDupAux]
    rw [if_neg hx]
    congr 1
    apply ih
    · exact (List.nodup_cons.mp hnd).2
    · intro a ha
      simp only [List.mem_cons, not_or]
      refine ⟨?_, hs a (List.mem_cons_of_mem _ ha)⟩
      intro he
      exact (List.nodup_cons.mp hnd).1 (he ▸ ha)

/-- `drop_duplicates` is the identity on duplicate-free tables. -/
theorem pandasDropDuplicates_eq_self {α : Type} [DecidableEq α]
    (l : List α) (h : l.Nodup) : pandasDropDuplicates l = l :=
  dropDupAux_eq_self l [] h (fun a _ => List.not_mem_nil a)

/-- C7 counterexample: the generator's output table (seed 42, two days) is
not sorted by date then neighborhood name — the generator never sorts, so
its rows come out neighborhood-major. -/
theorem generator_output_not_sorted :
    isSortedBy rowGLE (generateDataSeeded envOf0 ext0 42 2 100) = false := by
  have hkeys := keys_genAllRows env0 ext0 BAIRROS_RECIFE (dateRange 100 2) 0
  have hnodup :
      (((genAllRows env0 ext0 BAIRROS_RECIFE (dateRange 100 2) 0).1).map
        keyOf).Nodup := by
    rw [hkeys]
    decide
  have heq : generateDataSeeded envOf0 ext0 42 2 100 =
      (genAllRows env0 ext0 BAIRROS_RECIFE (dateRange 100 2) 0).1 :=
    pandasDropDuplicates_eq_self _ (List.Nodup.of_map _ hnodup)
  rw [heq, isSortedBy_map_keyOf, hkeys]
  decide

/-- Backfill behaviour of the tide loader: a day with no parsed reading gets
the mean of the per-day means of the file (when at least one day parsed). -/
theorem loadMare_get_of_missing (rows : List MareRow) (i : ℕ)
    (hi : i < rows.length)
    (hmiss : rowMare (rows.get ⟨i, hi⟩) = none)
    (hne : (rows.filterMap rowMare).isEmpty = false) :
    (loadMare rows).get? i =
      some (⟨(rows.get ⟨i, hi⟩).ano, (rows.get ⟨i, hi⟩).mes,
        (rows.get ⟨i, hi⟩).dia⟩, some (dailyMeansMean rows)) := by
  unfold loadMare dailyMeansMean
  rw [List.get?_map, List.get?_eq_get hi]
  rw [List.get_eq_getElem] at hmiss
  simp [hmiss, hne, Option.orElse]

/-- C4 amended: a day whose readings are all missing is assigned the mean of
the daily mean tide values of the other days of the same file (the mean of
the per-day means, a data-dependent quantity — not zero and not a fixed
constant), whenever some other day has a valid reading. -/
theorem tide_backfill_is_daily_means_mean (rows : List MareRow) (i : ℕ)
    (hi : i < rows.length)
    (hmiss : rowMare (rows.get ⟨i, hi⟩) = none)
    (hne : (rows.filterMap rowMare).isEmpty = false) :
    (loadMare rows).get? i =
      some (⟨(rows.get ⟨i, hi⟩).ano, (rows.get ⟨i, hi⟩).mes,
        (rows.get ⟨i, hi⟩).dia⟩, some (dailyMeansMean rows)) :=
  loadMare_get_of_missing rows i hi hmiss hne

/-- Witness for the amended C4 at the concrete tide file `mareRows0`, whose
third day has no valid reading. -/
theorem tide_backfill_is_daily_means_mean_witness :
    (loadMare mareRows0).get? 2 =
      some (⟨2024, 1, 3⟩, some (dailyMeansMean mareRows0)) :=
  tide_backfill_is_daily_means_mean mareRows0 2 (by decide) rfl rfl

/-- C4 counterexample: in the concrete tide file `mareRows0` the all-missing
day is assigned 3 — the mean of the two daily means 2 and 4 — whereas the
mean of all (other) successfully parsed readings 1.0, 3.0, 4.0 is 8/3 ≠ 3,
so the assigned value is not the mean of the other parsed readings. -/
theorem tide_backfill_counterexample :
    (loadMare mareRows0).get? 2 =
      some (⟨2024, 1, 3⟩, some (dailyMeansMean mareRows0)) ∧
    dailyMeansMean mareRows0 = 3 ∧
    (allParsedReadings mareRows0).sum /
      ((allParsedReadings mareRows0).length : ℚ) = 8 / 3 ∧
    (3 : ℚ) ≠ 8 / 3 := by
  have p1 : parse_float_br (some "1,0") =
      some ((natOfDigits ['1'] : ℚ) + (natOfDigits ['0'] : ℚ) / 10 ^ (1 : ℕ)) := rfl
  have p3 : parse_float_br (some "3,0") =
      some ((natOfDigits ['3'] : ℚ) + (natOfDigits ['0'] : ℚ) / 10 ^ (1 : ℕ)) := rfl
  have p4 : parse_float_br (some "4,0") =
      some ((natOfDigits ['4'] : ℚ) + (natOfDigits ['0'] : ℚ) / 10 ^ (1 : ℕ)) := rfl
  have pd : parse_float_br (some "-") = none := rfl
  have pn : parse_float_br (none : Option String) = none := rfl
  have d1 : (natOfDigits ['1'] : ℕ) = 1 := rfl
  have d0 : (natOfDigits ['0'] : ℕ) = 0 := rfl
  have d3 : (natOfDigits ['3'] : ℕ) = 3 := rfl
  have d4 : (natOfDigits ['4'] : ℕ) = 4 := rfl
  have hd : dailyMeansMean mareRows0 = 3 := by
    simp only [dailyMeansMean, mareRows0, rowMare, List.filterMap_cons,
      List.filterMap_nil, p1, p3, p4, pd, pn, d1, d0, d3, d4]
    norm_num
  refine ⟨?_, hd, ?_, by norm_num⟩
  · exact loadMare_get_of_missing mareRows0 2 (by decide) rfl rfl
  · simp only [allParsedReadings, mareRows0, List.flatMap_cons,
      List.flatMap_nil, List.filterMap_cons, List.filterMap_nil,
      p1, p3, p4, pd, pn, d1, d0, d3, d4]
    norm_num

end RecifeSafe
